import Mathlib

/-!
Verification of the MP_REACH_NLRI attribute codec
(yabgp/message/attribute/mpreachnlri.py).

`MpReachNLRI.parse` and `MpReachNLRI.construct` below are shallow embeddings
of the classmethods of the same names.  Byte strings are `List Nat` (one
entry per byte).  The external NLRI sub-codecs (`IPv4MPLSVPN.parse`,
`IPv4FlowSpec.parse`, `IPv4FlowSpec.construct`, `IPv6Unicast.parse`) and the
netaddr address library are black boxes to the source component: on the
parse side the embedding records, in a tagged constructor, the exact bytes
the source hands to each sub-decoder; on the construct side the flow-spec
encoder and the textual-address parser are explicit function parameters.
-/

namespace MpReachNLRI

/-- Modelled from the spec: yabgp.common.afn.AFNUM_INET, the IANA AFI code
for IPv4.  The afn module is not part of the slice; the value is the IANA
standard one, consistent with the spec example vector. -/
def AFNUM_INET : Nat := 1

/-- Modelled from the spec: yabgp.common.afn.AFNUM_INET6, the IANA AFI code
for IPv6 (the spec example vector uses AFI=0x0002 for IPv6). -/
def AFNUM_INET6 : Nat := 2

/-- Modelled from the spec: yabgp.common.safn.SAFNUM_UNICAST (the spec
example vector uses SAFI=0x01 for unicast). -/
def SAFNUM_UNICAST : Nat := 1

/-- Modelled from the spec: yabgp.common.safn.SAFNUM_LAB_VPNUNICAST, the
IANA SAFI code for MPLS-labeled VPN unicast. -/
def SAFNUM_LAB_VPNUNICAST : Nat := 128

/-- Modelled from the spec: yabgp.common.safn.SAFNUM_FSPEC_RULE, the IANA
SAFI code for flow-specification rules. -/
def SAFNUM_FSPEC_RULE : Nat := 133

/-- Modelled from the spec: yabgp.common.constants.ERR_MSG_UPDATE_ATTR_LEN,
the BGP UPDATE sub-error code for "Attribute Length Error" (RFC 4271). -/
def ERR_MSG_UPDATE_ATTR_LEN : Nat := 5

/-- Modelled from the spec: AttributeFlag.OPTIONAL, the optional bit of the
path-attribute flag byte (0x80). -/
def FLAG_OPTIONAL : Nat := 128

/-- Modelled from the spec: AttributeID.MP_REACH_NLRI, the path-attribute
type code 14. -/
def TYPE_MP_REACH_NLRI : Nat := 14

/-- Big-endian interpretation of a byte string as an unsigned integer;
this is what `int(binascii.b2a_hex(b), 16)` computes on a nonempty `b`. -/
def bytesToNat (bs : List Nat) : Nat :=
  bs.foldl (fun a b => 256 * a + b) 0

/-- Lower-case hex digit, as produced by Python string escapes. -/
def hexDigit (n : Nat) : Char :=
  if n < 10 then Char.ofNat (48 + n) else Char.ofNat (87 + n)

/-- The escape sequence Python 2 `repr` emits for one byte of a `str`,
given the quote character (as a byte) chosen for the literal. -/
def pyReprChar (q : Nat) (b : Nat) : List Char :=
  if b = 92 then [Char.ofNat 92, Char.ofNat 92]
  else if b = q then [Char.ofNat 92, Char.ofNat q]
  else if b = 9 then [Char.ofNat 92, Char.ofNat 116]
  else if b = 10 then [Char.ofNat 92, Char.ofNat 110]
  else if b = 13 then [Char.ofNat 92, Char.ofNat 114]
  else if b < 32 ∨ 127 ≤ b then
    [Char.ofNat 92, Char.ofNat 120, hexDigit (b / 16), hexDigit (b % 16)]
  else [Char.ofNat b]

/-- Python 2 `repr` of a byte string: a quoted, escaped display string.
The single quote is used unless the data contains a single quote and no
double quote. -/
def pyRepr (bs : List Nat) : String :=
  let q : Nat := if bs.contains 39 && !(bs.contains 34) then 34 else 39
  String.mk (Char.ofNat q :: bs.foldr (fun b acc => pyReprChar q b ++ acc) [Char.ofNat q])

/-- The local `afi`: the first two bytes of the attribute value,
big-endian (first component of struct.unpack with format !HBB over
`value[0:4]`). -/
def afiOf (value : List Nat) : Nat := 256 * value.getD 0 0 + value.getD 1 0

/-- The local `safi`: byte 2 of the attribute value. -/
def safiOf (value : List Nat) : Nat := value.getD 2 0

/-- The local `nexthop_length`: byte 3 of the attribute value. -/
def nexthopLenOf (value : List Nat) : Nat := value.getD 3 0

/-- The local `nexthop_bin = value[4:4 + nexthop_length]`: Python slicing
clamps, so this is a take after a drop and can silently be shorter than
declared. -/
def nexthopBinOf (value : List Nat) : List Nat :=
  (value.drop 4).take (nexthopLenOf value)

/-- The local `nlri_bin = value[5 + nexthop_length:]`. -/
def nlriBinOf (value : List Nat) : List Nat :=
  value.drop (5 + nexthopLenOf value)

/-- The `nexthop` entry of the dictionary `parse` returns: either the raw
`nexthop_bin` bytes passed through, or (IPv6-unicast branch) the textual
address `str(netaddr.IPAddress(n))`, represented by the integer `n` that
was decoded from the first 16 next-hop bytes. -/
inductive NexthopVal where
  | raw (b : List Nat)
  | ipAddr (n : Nat)
  deriving DecidableEq, Repr

/-- The `nlri` entry of the dictionary `parse` returns.  Delegation to an
external sub-decoder is recorded as a tagged constructor holding exactly
the bytes handed over; the fallback branches hold the `repr` display
string the source computes. -/
inductive NlriVal where
  | vpnParsed (input : List Nat)
  | flowParsed (input : List Nat)
  | v6Parsed (input : List Nat)
  | reprStr (s : String)
  deriving DecidableEq, Repr

/-- The dictionary `parse` returns on success.  `linklocal_nexthop = some n`
models the presence of the `linklocal_nexthop` key (the decoded integer of
the upper 16 next-hop bytes); `none` models its absence. -/
structure MpReachDict where
  afi_safi : Nat × Nat
  nexthop : NexthopVal
  linklocal_nexthop : Option Nat
  nlri : NlriVal
  deriving DecidableEq, Repr

/-- Outcome of `parse`: a dictionary, the typed
`UpdateMessageError(sub_error, data)` the source raises on a short header,
or one of the two untyped exceptions the source can let escape
(`ValueError` from calling int with base 16 on an empty hex string,
`UnboundLocalError`/`NameError` from the unassigned local `nlri`). -/
inductive ParseResult where
  | ok (d : MpReachDict)
  | updateMessageError (subError : Nat) (data : String)
  | valueError
  | nameError
  deriving DecidableEq, Repr

/-- Shallow embedding of `MpReachNLRI.parse`.

* The header unpack (struct.unpack, format !HBB, over `value[0:4]`)
  fails (and the except-clause raises
  `UpdateMessageError` with the attribute-length sub-error and
  `repr(value)`) exactly when fewer than 4 bytes are available; the two
  slices themselves never fail.
* IPv4 then dispatches on SAFI: VPN-MPLS delegates `nlri_bin`; flow-spec
  first drops 2 bytes of `nlri_bin` when its length is at least 240, else
  1 byte; any other SAFI stores `repr(nlri_bin)`.
* IPv6 unicast decodes `nexthop_bin[:16]` as an integer
  (`ValueError` when that slice is empty), adds the link-local integer
  decoded from `nexthop_bin[16:]` exactly when `len(nexthop_bin) == 32`,
  and delegates `nlri_bin`; IPv6 with any other SAFI falls through to the
  final return where the local `nlri` was never assigned (`NameError`).
* Any other AFI stores `repr(nlri_bin)` and passes `nexthop_bin` through. -/
def parse (value : List Nat) : ParseResult :=
  if value.length < 4 then
    .updateMessageError ERR_MSG_UPDATE_ATTR_LEN (pyRepr value)
  else if afiOf value = AFNUM_INET then
    if safiOf value = SAFNUM_LAB_VPNUNICAST then
      .ok ⟨(afiOf value, safiOf value), .raw (nexthopBinOf value), none,
        .vpnParsed (nlriBinOf value)⟩
    else if safiOf value = SAFNUM_FSPEC_RULE then
      .ok ⟨(afiOf value, safiOf value), .raw (nexthopBinOf value), none,
        .flowParsed (if 240 ≤ (nlriBinOf value).length then (nlriBinOf value).drop 2
          else (nlriBinOf value).drop 1)⟩
    else
      .ok ⟨(afiOf value, safiOf value), .raw (nexthopBinOf value), none,
        .reprStr (pyRepr (nlriBinOf value))⟩
  else if afiOf value = AFNUM_INET6 then
    if safiOf value = SAFNUM_UNICAST then
      if ((nexthopBinOf value).take 16).isEmpty then
        .valueError
      else if (nexthopBinOf value).length = 32 then
        .ok ⟨(afiOf value, safiOf value),
          .ipAddr (bytesToNat ((nexthopBinOf value).take 16)),
          some (bytesToNat ((nexthopBinOf value).drop 16)),
          .v6Parsed (nlriBinOf value)⟩
      else
        .ok ⟨(afiOf value, safiOf value),
          .ipAddr (bytesToNat ((nexthopBinOf value).take 16)),
          none, .v6Parsed (nlriBinOf value)⟩
    else
      .nameError
  else
    .ok ⟨(afiOf value, safiOf value), .raw (nexthopBinOf value), none,
      .reprStr (pyRepr (nlriBinOf value))⟩

/-- The `value` dictionary `construct` consumes: keys `afi_safi` (a pair),
`nexthop` (a textual address) and `nlri` (a list of rules).  The NLRI
entry type is abstract — the source hands the list unchanged to the
flow-spec sub-encoder. -/
structure ConstructInput (Rule : Type) where
  afi_safi : Nat × Nat
  nexthop : String
  nlri : List Rule
  deriving DecidableEq, Repr

/-- Outcome of `construct`: attribute bytes, the implicit Python `None`
(falling off the end of the method, or the `pass` branch), or the typed
`ConstructAttributeFailed(reason, data)`. -/
inductive ConstructResult (Rule : Type) where
  | bytes (b : List Nat)
  | noneValue
  | constructError (reason : String) (data : ConstructInput Rule)
  deriving DecidableEq, Repr

/-- The message of the `struct.error` raised by `struct.pack` with format
`!B` on a number above 255. -/
def structUbyteMsg : String := "ubyte format requires 0 <= number <= 255"

/-- Shallow embedding of `MpReachNLRI.construct`.

* `ipPacked` models `netaddr.IPAddress(s).packed` (`none` for
  `AddrFormatError`, in which case the source substitutes the empty
  string); `flowConstruct` models `IPv4FlowSpec.construct`
  (`Except.error e` models a raised exception with message `e`).
* (IPv4, VPN-MPLS) is a bare `pass`: the method returns `None`.
* (IPv4, flow-spec): encode, return `None` on an empty encoding, otherwise
  assemble `[flag][type][len][AFI][SAFI][nh len][nh][0x00][nlri]`.  Every
  exception inside the try-block — a sub-encoder failure or a
  a struct.pack with format !B on a number above 255 — is wrapped as
  `ConstructAttributeFailed` with a reason beginning
  "failed to construct attributes: " and with the input value as data.
* Every other (AFI, SAFI) raises `ConstructAttributeFailed` with reason
  "unsupport this sub address family" and the input value as data. -/
def construct {Rule : Type} (ipPacked : String → Option (List Nat))
    (flowConstruct : List Rule → Except String (List Nat))
    (value : ConstructInput Rule) : ConstructResult Rule :=
  if value.afi_safi.1 = AFNUM_INET then
    if value.afi_safi.2 = SAFNUM_LAB_VPNUNICAST then
      .noneValue
    else if value.afi_safi.2 = SAFNUM_FSPEC_RULE then
      match flowConstruct value.nlri with
      | .error e => .constructError ("failed to construct attributes: " ++ e) value
      | .ok nlri =>
        if nlri.isEmpty then
          .noneValue
        else if 255 < ((ipPacked value.nexthop).getD []).length then
          .constructError ("failed to construct attributes: " ++ structUbyteMsg) value
        else if 255 < ([value.afi_safi.1 / 256 % 256, value.afi_safi.1 % 256,
            value.afi_safi.2, ((ipPacked value.nexthop).getD []).length] ++
            ((ipPacked value.nexthop).getD []) ++ [0] ++ nlri).length then
          .constructError ("failed to construct attributes: " ++ structUbyteMsg) value
        else
          .bytes ([FLAG_OPTIONAL, TYPE_MP_REACH_NLRI,
            ([value.afi_safi.1 / 256 % 256, value.afi_safi.1 % 256,
              value.afi_safi.2, ((ipPacked value.nexthop).getD []).length] ++
              ((ipPacked value.nexthop).getD []) ++ [0] ++ nlri).length] ++
            [value.afi_safi.1 / 256 % 256, value.afi_safi.1 % 256,
              value.afi_safi.2, ((ipPacked value.nexthop).getD []).length] ++
            ((ipPacked value.nexthop).getD []) ++ [0] ++ nlri)
    else
      .constructError "unsupport this sub address family" value
  else
    .constructError "unsupport this sub address family" value

/-- A concrete IPv6-unicast attribute value with a 32-byte next-hop field:
AFI=2, SAFI=1, next-hop length 32, global address bytes ending in 1,
link-local address bytes ending in 2, reserved byte, empty NLRI. -/
def v6SampleInput : List Nat :=
  [0, 2, 1, 32,
   0, 0, 0, 0, 0, 0, 0, 0, 0, 0, 0, 0, 0, 0, 0, 1,
   0, 0, 0, 0, 0, 0, 0, 0, 0, 0, 0, 0, 0, 0, 0, 2,
   0]

/-- C1: the claim says `parse` raises the attribute-length error whenever
fewer than `4 + NextHopLength + 1` bytes are available, never returning a
structure built from a truncated slice.  The code only checks the 4-byte
header: on input `[0x00, 0x01, 0x01, 0x05]` (AFI=1, SAFI=1, declared
next-hop length 5, but 0 bytes after the header) it instead returns a
dictionary whose next hop is the silently-clamped empty slice and whose
NLRI is the repr of the empty slice. -/
theorem c1_truncated_slice_returned :
    parse [0, 1, 1, 5] =
      ParseResult.ok ⟨(1, 1), NexthopVal.raw [], none, NlriVal.reprStr (pyRepr [])⟩ := by
  decide

/-- C2: the claim says an IPv6-unicast next-hop field whose length is
neither 16 nor 32 always raises the attribute-length error.  The code
never checks that length: on an input declaring (and carrying) a 17-byte
next-hop field it decodes the first 16 bytes as the global address,
drops the 17th byte, and returns a dictionary — a partial decode, no
error. -/
theorem c2_oversize_nexthop_partially_decoded :
    parse ([0, 2, 1, 17] ++ List.replicate 16 0 ++ [1, 0]) =
      ParseResult.ok ⟨(2, 1), NexthopVal.ipAddr 0, none, NlriVal.v6Parsed []⟩ := by
  decide

/-- C5: the claim says `parse` either raises a typed error or returns a
fully-populated result, in particular for AFI = IPv6 with a SAFI other
than unicast.  In that branch the code assigns neither `nlri` nor returns
early, so the final `return dict(...)` reads the unassigned local `nlri`
and raises an untyped `UnboundLocalError` (a `NameError`), here on
AFI=2, SAFI=128. -/
theorem c5_ipv6_other_safi_name_error :
    parse [0, 2, 128, 0, 0] = ParseResult.nameError := by
  decide

/-- C6: the claim says unrecognized (AFI, SAFI) pairs keep the NLRI bytes
unmodified as a byte-preserving value.  The code instead stores
`repr(nlri_bin)`, a display string: on AFI=1, SAFI=2 with the single NLRI
byte 0xAA the result holds the 6-character escaped string literal that
`repr` renders, not the byte itself. -/
theorem c6_fallback_nlri_is_display_string :
    parse [0, 1, 2, 0, 0, 170] =
      ParseResult.ok ⟨(1, 2), NexthopVal.raw [], none, NlriVal.reprStr (pyRepr [170])⟩ ∧
    (pyRepr [170]).length = 6 := by
  constructor
  · decide
  · decide

/-- C7: the claim says `construct` on (IPv4, VPN-MPLS unicast) raises an
explicit not-supported error.  The branch body in the code is a bare pass statement, so the
method falls through and returns `None` — no error, no value — whatever
the sub-encoders and the address parser do and whatever next hop and NLRI
list the value carries. -/
theorem c7_vpn_construct_returns_none {Rule : Type}
    (ipPacked : String → Option (List Nat))
    (flowConstruct : List Rule → Except String (List Nat))
    (nexthop : String) (nlri : List Rule) :
    construct ipPacked flowConstruct ⟨(AFNUM_INET, SAFNUM_LAB_VPNUNICAST), nexthop, nlri⟩ =
      ConstructResult.noneValue := by
  rfl

/-- C4: for every (IPv4, flow-spec) input, `parse` strips exactly 2 leading
bytes from the NLRI field before delegating to the flow-spec sub-decoder
when the total byte count of the field is at least 240, and strips exactly
1 leading byte when it is below 240. -/
theorem c4_flowspec_length_strip (value : List Nat)
    (hlen : 4 ≤ value.length)
    (hafi : afiOf value = AFNUM_INET)
    (hsafi : safiOf value = SAFNUM_FSPEC_RULE) :
    (240 ≤ (nlriBinOf value).length →
      parse value = ParseResult.ok ⟨(AFNUM_INET, SAFNUM_FSPEC_RULE),
        NexthopVal.raw (nexthopBinOf value), none,
        NlriVal.flowParsed ((nlriBinOf value).drop 2)⟩) ∧
    ((nlriBinOf value).length < 240 →
      parse value = ParseResult.ok ⟨(AFNUM_INET, SAFNUM_FSPEC_RULE),
        NexthopVal.raw (nexthopBinOf value), none,
        NlriVal.flowParsed ((nlriBinOf value).drop 1)⟩) := by
  have hnotlt : ¬ value.length < 4 := not_lt.mpr hlen
  have hns : safiOf value ≠ SAFNUM_LAB_VPNUNICAST := by
    rw [hsafi]; decide
  constructor
  · intro h240
    rw [parse, if_neg hnotlt, if_pos hafi, if_neg hns, if_pos hsafi, if_pos h240,
      hafi, hsafi]
  · intro h240
    rw [parse, if_neg hnotlt, if_pos hafi, if_neg hns, if_pos hsafi,
      if_neg (not_le.mpr h240), hafi, hsafi]

set_option maxRecDepth 20000 in
/-- Witness for C4 at concrete inputs on both sides of the 240-byte
boundary: a 2-byte NLRI field loses 1 byte, a 240-byte NLRI field loses
2 bytes. -/
theorem c4_flowspec_length_strip_witness :
    parse [0, 1, 133, 0, 0, 9, 9] =
      ParseResult.ok ⟨(1, 133), NexthopVal.raw [], none, NlriVal.flowParsed [9]⟩ ∧
    parse ([0, 1, 133, 0, 0] ++ List.replicate 240 7) =
      ParseResult.ok ⟨(1, 133), NexthopVal.raw [], none,
        NlriVal.flowParsed (List.replicate 238 7)⟩ := by
  constructor
  · exact (c4_flowspec_length_strip [0, 1, 133, 0, 0, 9, 9]
      (by decide) (by decide) (by decide)).2 (by decide)
  · have h := (c4_flowspec_length_strip ([0, 1, 133, 0, 0] ++ List.replicate 240 7)
      (by decide) (by decide) (by decide)).1 (by decide)
    have heq : (nlriBinOf ([0, 1, 133, 0, 0] ++ List.replicate 240 7)).drop 2 =
        List.replicate 238 7 := by decide
    have hnh : nexthopBinOf ([0, 1, 133, 0, 0] ++ List.replicate 240 7) = [] := by decide
    rw [heq, hnh] at h
    exact h

/-- C3: on every IPv6-unicast input that `parse` accepts, the link-local
next hop is present iff the next-hop field is exactly 32 bytes, in which
case the global address is decoded from bytes [0:16) and the link-local
address from bytes [16:32) of that field; with a 16-byte field no
link-local address is present. -/
theorem c3_ipv6_linklocal_iff_32 (value : List Nat) (d : MpReachDict)
    (hafi : afiOf value = AFNUM_INET6)
    (hsafi : safiOf value = SAFNUM_UNICAST)
    (h : parse value = ParseResult.ok d) :
    (d.linklocal_nexthop.isSome ↔ (nexthopBinOf value).length = 32) ∧
    ((nexthopBinOf value).length = 32 →
      d.nexthop = NexthopVal.ipAddr (bytesToNat ((nexthopBinOf value).take 16)) ∧
      d.linklocal_nexthop = some (bytesToNat ((nexthopBinOf value).drop 16))) ∧
    ((nexthopBinOf value).length = 16 → d.linklocal_nexthop = none) := by
  have hni : afiOf value ≠ AFNUM_INET := by rw [hafi]; decide
  by_cases hlen : value.length < 4
  · rw [parse, if_pos hlen] at h
    exact absurd h (by simp)
  · rw [parse, if_neg hlen, if_neg hni, if_pos hafi, if_pos hsafi] at h
    by_cases hemp : ((nexthopBinOf value).take 16).isEmpty
    · rw [if_pos hemp] at h
      exact absurd h (by simp)
    · rw [if_neg hemp] at h
      by_cases h32 : (nexthopBinOf value).length = 32
      · rw [if_pos h32] at h
        injection h with h2
        subst h2
        exact ⟨by simp [h32], fun _ => ⟨rfl, rfl⟩,
          fun h16 => absurd h16 (by omega)⟩
      · rw [if_neg h32] at h
        injection h with h2
        subst h2
        exact ⟨by simp [h32], fun hc => absurd hc h32, fun _ => rfl⟩

/-- Witness for C3 at `v6SampleInput` (32-byte next-hop field): the
link-local next hop is present, the global address decodes bytes [0:16)
and the link-local address bytes [16:32). -/
theorem c3_ipv6_linklocal_iff_32_witness :
    ((⟨(2, 1), NexthopVal.ipAddr 1, some 2, NlriVal.v6Parsed []⟩ :
        MpReachDict).linklocal_nexthop.isSome ↔
      (nexthopBinOf v6SampleInput).length = 32) ∧
    ((nexthopBinOf v6SampleInput).length = 32 →
      (⟨(2, 1), NexthopVal.ipAddr 1, some 2, NlriVal.v6Parsed []⟩ :
          MpReachDict).nexthop =
        NexthopVal.ipAddr (bytesToNat ((nexthopBinOf v6SampleInput).take 16)) ∧
      (⟨(2, 1), NexthopVal.ipAddr 1, some 2, NlriVal.v6Parsed []⟩ :
          MpReachDict).linklocal_nexthop =
        some (bytesToNat ((nexthopBinOf v6SampleInput).drop 16))) ∧
    ((nexthopBinOf v6SampleInput).length = 16 →
      (⟨(2, 1), NexthopVal.ipAddr 1, some 2, NlriVal.v6Parsed []⟩ :
        MpReachDict).linklocal_nexthop = none) :=
  c3_ipv6_linklocal_iff_32 v6SampleInput
    ⟨(2, 1), NexthopVal.ipAddr 1, some 2, NlriVal.v6Parsed []⟩
    (by decide) (by decide) (by decide)

/-- C8: constructing an (IPv4, flow-spec) value whose rule list encodes to
an empty NLRI byte string produces no attribute bytes at all (the method
returns `None`) and raises no error. -/
theorem c8_flowspec_empty_nlri_returns_none {Rule : Type}
    (ipPacked : String → Option (List Nat))
    (flowConstruct : List Rule → Except String (List Nat))
    (value : ConstructInput Rule)
    (hfam : value.afi_safi = (AFNUM_INET, SAFNUM_FSPEC_RULE))
    (henc : flowConstruct value.nlri = Except.ok []) :
    construct ipPacked flowConstruct value = ConstructResult.noneValue := by
  have h1 : value.afi_safi.1 = AFNUM_INET := by rw [hfam]
  have h2 : value.afi_safi.2 = SAFNUM_FSPEC_RULE := by rw [hfam]
  have h128 : value.afi_safi.2 ≠ SAFNUM_LAB_VPNUNICAST := by rw [h2]; decide
  rw [construct, if_pos h1, if_neg h128, if_pos h2, henc]
  rfl

/-- Witness for C8: with an encoder that returns the empty byte string,
constructing a concrete (IPv4, flow-spec) value yields `None`. -/
theorem c8_flowspec_empty_nlri_returns_none_witness :
    construct (fun _ => none)
      (fun _ : List Nat => (Except.ok [] : Except String (List Nat)))
      ⟨(1, 133), "10.0.0.1", [5]⟩ = ConstructResult.noneValue :=
  c8_flowspec_empty_nlri_returns_none (fun _ => none)
    (fun _ : List Nat => (Except.ok [] : Except String (List Nat)))
    ⟨(1, 133), "10.0.0.1", [5]⟩ rfl rfl

/-- C9: constructing a value whose (AFI, SAFI) pair is neither
(IPv4, flow-spec) nor (IPv4, VPN-MPLS) raises
`ConstructAttributeFailed` with the human-readable unsupported-family
reason and the offending value; and any exception from the flow-spec
sub-encoder is wrapped as `ConstructAttributeFailed` carrying its message
and the offending value. -/
theorem c9_construct_error_cases {Rule : Type}
    (ipPacked : String → Option (List Nat))
    (flowConstruct : List Rule → Except String (List Nat))
    (value : ConstructInput Rule) :
    ((value.afi_safi ≠ (AFNUM_INET, SAFNUM_LAB_VPNUNICAST) ∧
      value.afi_safi ≠ (AFNUM_INET, SAFNUM_FSPEC_RULE)) →
      construct ipPacked flowConstruct value =
        ConstructResult.constructError "unsupport this sub address family" value) ∧
    (∀ e, value.afi_safi = (AFNUM_INET, SAFNUM_FSPEC_RULE) →
      flowConstruct value.nlri = Except.error e →
      construct ipPacked flowConstruct value =
        ConstructResult.constructError ("failed to construct attributes: " ++ e) value) := by
  have hp : value.afi_safi = (value.afi_safi.1, value.afi_safi.2) := rfl
  constructor
  · rintro ⟨hvpn, hfs⟩
    by_cases ha : value.afi_safi.1 = AFNUM_INET
    · have h128 : value.afi_safi.2 ≠ SAFNUM_LAB_VPNUNICAST := by
        intro hq
        exact hvpn (by rw [hp, ha, hq])
      have h133 : value.afi_safi.2 ≠ SAFNUM_FSPEC_RULE := by
        intro hq
        exact hfs (by rw [hp, ha, hq])
      rw [construct, if_pos ha, if_neg h128, if_neg h133]
    · rw [construct, if_neg ha]
  · intro e hfam henc
    have h1 : value.afi_safi.1 = AFNUM_INET := by rw [hfam]
    have h2 : value.afi_safi.2 = SAFNUM_FSPEC_RULE := by rw [hfam]
    have h128 : value.afi_safi.2 ≠ SAFNUM_LAB_VPNUNICAST := by rw [h2]; decide
    rw [construct, if_pos h1, if_neg h128, if_pos h2, henc]

/-- Witness for C9: (IPv4, multicast) — SAFI 2 — yields the
unsupported-family error carrying the input value, and an encoder that
raises is wrapped with its message. -/
theorem c9_construct_error_cases_witness :
    construct (fun _ => none)
      (fun _ : List Nat => (Except.ok [] : Except String (List Nat)))
      ⟨(1, 2), "1.2.3.4", []⟩ =
      ConstructResult.constructError "unsupport this sub address family"
        ⟨(1, 2), "1.2.3.4", []⟩ ∧
    construct (fun _ => none)
      (fun _ : List Nat => (Except.error "boom" : Except String (List Nat)))
      ⟨(1, 133), "1.2.3.4", []⟩ =
      ConstructResult.constructError ("failed to construct attributes: " ++ "boom")
        ⟨(1, 133), "1.2.3.4", []⟩ :=
  ⟨(c9_construct_error_cases (fun _ => none)
      (fun _ : List Nat => (Except.ok [] : Except String (List Nat)))
      ⟨(1, 2), "1.2.3.4", []⟩).1 (by constructor <;> decide),
   (c9_construct_error_cases (fun _ => none)
      (fun _ : List Nat => (Except.error "boom" : Except String (List Nat)))
      ⟨(1, 133), "1.2.3.4", []⟩).2 "boom" rfl rfl⟩

/-- C10: constructing an (IPv4, flow-spec) value whose assembled attribute
value (AFI + SAFI + next-hop length + next-hop bytes + reserved byte +
encoded NLRI, i.e. `5 + |nexthop| + |nlri|` bytes) exceeds 255 bytes
raises `ConstructAttributeFailed`: the single-byte length pack fails and
the exception is wrapped, rather than emitting a wrapped or truncated
length byte. -/
theorem c10_overlong_attr_value_raises {Rule : Type}
    (ipPacked : String → Option (List Nat))
    (flowConstruct : List Rule → Except String (List Nat))
    (value : ConstructInput Rule) (nlri : List Nat)
    (hfam : value.afi_safi = (AFNUM_INET, SAFNUM_FSPEC_RULE))
    (henc : flowConstruct value.nlri = Except.ok nlri)
    (hne : nlri ≠ [])
    (hbig : 255 < 5 + ((ipPacked value.nexthop).getD []).length + nlri.length) :
    construct ipPacked flowConstruct value =
      ConstructResult.constructError
        ("failed to construct attributes: " ++ structUbyteMsg) value := by
  have h1 : value.afi_safi.1 = AFNUM_INET := by rw [hfam]
  have h2 : value.afi_safi.2 = SAFNUM_FSPEC_RULE := by rw [hfam]
  have h128 : value.afi_safi.2 ≠ SAFNUM_LAB_VPNUNICAST := by rw [h2]; decide
  rw [construct, if_pos h1, if_neg h128, if_pos h2]
  split
  · rename_i e heq
    rw [henc] at heq
    exact absurd heq (by simp)
  · rename_i l heq
    rw [henc] at heq
    injection heq with hl
    rw [← hl]
    have hEmm : ¬ (nlri.isEmpty = true) := by
      cases nlri
      · exact absurd rfl hne
      · simp
    rw [if_neg hEmm]
    by_cases hnh : 255 < ((ipPacked value.nexthop).getD []).length
    · rw [if_pos hnh]
    · rw [if_neg hnh]
      have hlong : 255 < ([value.afi_safi.1 / 256 % 256, value.afi_safi.1 % 256,
          value.afi_safi.2, ((ipPacked value.nexthop).getD []).length] ++
          ((ipPacked value.nexthop).getD []) ++ [0] ++ nlri).length := by
        simp only [List.length_append, List.length_cons, List.length_nil]
        omega
      rw [if_pos hlong]

set_option maxRecDepth 20000 in
/-- Witness for C10: an encoder producing 251 NLRI bytes with an absent
next hop makes the attribute value 256 bytes long; `construct` raises the
wrapped pack failure. -/
theorem c10_overlong_attr_value_raises_witness :
    construct (fun _ => none)
      (fun _ : List Nat => (Except.ok (List.replicate 251 1) : Except String (List Nat)))
      ⟨(1, 133), "x", []⟩ =
      ConstructResult.constructError
        ("failed to construct attributes: " ++ structUbyteMsg) ⟨(1, 133), "x", []⟩ :=
  c10_overlong_attr_value_raises (fun _ => none)
    (fun _ : List Nat => (Except.ok (List.replicate 251 1) : Except String (List Nat)))
    ⟨(1, 133), "x", []⟩ (List.replicate 251 1) rfl rfl (by decide) (by decide)

end MpReachNLRI
